import Mathlib

/-!
Verification of the response-capturing wrapper of `hekmon/httplog`
(`response.go`, package `httpinspect`).

The wrapper `ResponseWriter` decorates an underlying HTTP response sink.
We embed it shallowly:

* the wrapper's own mutable state (`flusher`, `code`, `body`) becomes the
  structure `Httplog.ResponseWriter`;
* the underlying sink is observed through `Httplog.SinkState`: its mutable
  header map (an association list; only `Content-Type` is ever read by the
  code) and the ordered trace of calls forwarded to it (`SinkEvent`:
  `writeHeader`, `write`, `flush`);
* the sink's own return value for a body write (`n, err` in Go) is an
  input parameter of `Write`, since the sink is external;
* Go's `defer f.Flush()` appends the `flush` event after the events of the
  statements that run before the enclosing function returns;
* a nil `*ResponseWriter` receiver is modelled by `Option ResponseWriter`:
  every method of the Go code dereferences a field of the receiver, which
  panics on nil, modelled by the `none` result of the `...On` wrappers.

Bytes are `List Nat`, Go `int` is `Int`, a Go `error` is `Option String`.
-/

namespace Httplog

/-- A single call forwarded to the underlying `http.ResponseWriter` sink. -/
inductive SinkEvent where
  | writeHeader (code : Int)
  | write (data : List Nat)
  | flush
deriving DecidableEq

/-- Observable state of the underlying sink: its mutable header map and the
ordered trace of calls it has received. -/
structure SinkState where
  headers : List (String × String)
  events : List SinkEvent
deriving DecidableEq

/-- State of the wrapper (`ResponseWriter` struct in `response.go`):
`flusher` is whether the retained `http.Flusher` reference is non-nil,
`code` is the recorded status code, `body` is the optional capture buffer
(absent when `captureBody` was false or after the latch nulled nothing —
the buffer itself is never nulled). -/
structure ResponseWriter where
  flusher : Bool
  code : Int
  body : Option (List Nat)
deriving DecidableEq

/-- Go `var StreamingContentTypes` from `response.go` (its default value). -/
def StreamingContentTypes : List String :=
  ["text/event-stream", "application/x-ndjson"]

/-- Go `Header().Get(key)`: first value for the key, `""` when absent. -/
def headerGet (hs : List (String × String)) (k : String) : String :=
  match hs with
  | [] => ""
  | (k', v) :: rest => if k' = k then v else headerGet rest k

/-- Go `Header().Set(key, value)`: replace the value for the key. -/
def headerSet (hs : List (String × String)) (k v : String) : List (String × String) :=
  match hs with
  | [] => [(k, v)]
  | (k', v') :: rest => if k' = k then (k, v) :: rest else (k', v') :: headerSet rest k v

/-- The loop of `WriteHeader`: does the response content type exactly equal
one of the configured streaming content types? -/
def matchesStreaming (cts : List String) (responseContentType : String) : Bool :=
  match cts with
  | [] => false
  | ct :: rest => if ct = responseContentType then true else matchesStreaming rest responseContentType

/-- Constructor `NewResponseWriter(w, captureBody)`. `sinkPresent` models `w != nil`,
`flushCapable` models the `w.(http.Flusher)` type assertion succeeding.
A nil sink returns the zero value of the named return: a nil pointer. -/
def NewResponseWriter (sinkPresent flushCapable captureBody : Bool) :
    Option ResponseWriter :=
  if sinkPresent = false then
    none
  else
    some { flusher := flushCapable
           code := 0
           body := if captureBody then some [] else none }

/-- Method `GetResponseCode()`: returns `rw.code`. -/
def ResponseWriter.GetResponseCode (rw : ResponseWriter) : Int :=
  rw.code

/-- Method `GetBody()`: nil when the buffer is absent, else the buffer contents. -/
def ResponseWriter.GetBody (rw : ResponseWriter) : Option (List Nat) :=
  match rw.body with
  | none => none
  | some b => some b

/-- Method `Header()`: returns the underlying sink's header map. -/
def ResponseWriter.Header (_ : ResponseWriter) (sink : SinkState) :
    List (String × String) :=
  sink.headers

/-- Method `WriteHeader(statusCode)`: forward the status to the sink, record it,
then (only when a flusher is retained) either schedule a deferred flush
when the current `Content-Type` is a streaming one, or null the flusher. -/
def ResponseWriter.WriteHeader (rw : ResponseWriter) (cts : List String)
    (sink : SinkState) (statusCode : Int) : ResponseWriter × SinkState :=
  let sink1 : SinkState :=
    { sink with events := sink.events ++ [SinkEvent.writeHeader statusCode] }
  let rw1 : ResponseWriter := { rw with code := statusCode }
  if rw1.flusher = false then
    (rw1, sink1)
  else if matchesStreaming cts (headerGet sink1.headers "Content-Type") then
    (rw1, { sink1 with events := sink1.events ++ [SinkEvent.flush] })
  else
    ({ rw1 with flusher := false }, sink1)

/-- The body-capture step of `Write` (`if rw.body != nil { rw.body.Write(data) }`):
append to the buffer when it is present, skip otherwise. -/
def bodyAppend (rw : ResponseWriter) (data : List Nat) : ResponseWriter :=
  match rw.body with
  | none => rw
  | some b => { rw with body := some (b ++ data) }

/-- Method `Write(data)`: implicit `WriteHeader(200)` when no code is recorded,
append to the capture buffer when present, forward the write to the sink
and return its result verbatim, with a deferred flush (after the sink
write) when a flusher is retained at that point. `wrappedRes` is the pair
the underlying sink's `Write` returns. -/
def ResponseWriter.Write (rw : ResponseWriter) (cts : List String)
    (sink : SinkState) (data : List Nat) (wrappedRes : Nat × Option String) :
    ResponseWriter × SinkState × (Nat × Option String) :=
  let p := if rw.code = 0 then rw.WriteHeader cts sink 200 else (rw, sink)
  let rw2 : ResponseWriter := bodyAppend p.1 data
  let sink2 : SinkState :=
    { p.2 with events := p.2.events ++ [SinkEvent.write data] }
  let sink3 : SinkState :=
    if rw2.flusher then { sink2 with events := sink2.events ++ [SinkEvent.flush] }
    else sink2
  (rw2, sink3, wrappedRes)

/-- Method `Flush()`: forward to the retained flusher when present, else no-op. -/
def ResponseWriter.Flush (rw : ResponseWriter) (sink : SinkState) : SinkState :=
  if rw.flusher then { sink with events := sink.events ++ [SinkEvent.flush] }
  else sink

/-! Method calls on a possibly-nil `*ResponseWriter` receiver. Every method
of the Go code dereferences a field of `rw`, so a nil receiver panics:
the `none` result stands for that panic. -/

/-- Call `rw.GetResponseCode()` on a possibly-nil receiver. -/
def GetResponseCodeOn (orw : Option ResponseWriter) : Option Int :=
  match orw with
  | none => none
  | some rw => some rw.GetResponseCode

/-- Call `rw.GetBody()` on a possibly-nil receiver. -/
def GetBodyOn (orw : Option ResponseWriter) : Option (Option (List Nat)) :=
  match orw with
  | none => none
  | some rw => some rw.GetBody

/-- Call `rw.Header()` on a possibly-nil receiver. -/
def HeaderOn (orw : Option ResponseWriter) (sink : SinkState) :
    Option (List (String × String)) :=
  match orw with
  | none => none
  | some rw => some (rw.Header sink)

/-- Call `rw.WriteHeader(code)` on a possibly-nil receiver. -/
def WriteHeaderOn (orw : Option ResponseWriter) (cts : List String)
    (sink : SinkState) (statusCode : Int) : Option (ResponseWriter × SinkState) :=
  match orw with
  | none => none
  | some rw => some (rw.WriteHeader cts sink statusCode)

/-- Call `rw.Write(data)` on a possibly-nil receiver. -/
def WriteOn (orw : Option ResponseWriter) (cts : List String) (sink : SinkState)
    (data : List Nat) (wrappedRes : Nat × Option String) :
    Option (ResponseWriter × SinkState × (Nat × Option String)) :=
  match orw with
  | none => none
  | some rw => some (rw.Write cts sink data wrappedRes)

/-- Call `rw.Flush()` on a possibly-nil receiver. -/
def FlushOn (orw : Option ResponseWriter) (sink : SinkState) : Option SinkState :=
  match orw with
  | none => none
  | some rw => some (rw.Flush sink)

/-! Traces of handler activity against one wrapper instance. -/

/-- One action the wrapped handler can take: mutate a header through the
shared header map, call `WriteHeader`, call `Write` (with the result the
sink will return), or call `Flush`. -/
inductive Op where
  | setHeader (k v : String)
  | writeHeader (code : Int)
  | write (data : List Nat) (res : Nat × Option String)
  | flush
deriving DecidableEq

/-- Run a list of handler actions against the wrapper and the sink. -/
def run (cts : List String) (rw : ResponseWriter) (sink : SinkState) :
    List Op → ResponseWriter × SinkState
  | [] => (rw, sink)
  | Op.setHeader k v :: rest =>
      run cts rw { sink with headers := headerSet sink.headers k v } rest
  | Op.writeHeader c :: rest =>
      let p := rw.WriteHeader cts sink c
      run cts p.1 p.2 rest
  | Op.write d r :: rest =>
      let p := rw.Write cts sink d r
      run cts p.1 p.2.1 rest
  | Op.flush :: rest =>
      run cts rw (rw.Flush sink) rest

/-- The wrapper state `NewResponseWriter` builds for a non-nil sink. -/
def freshRW (flushCapable captureBody : Bool) : ResponseWriter :=
  { flusher := flushCapable
    code := 0
    body := if captureBody then some [] else none }

/-- Is this sink event a flush? -/
def SinkEvent.isFlush : SinkEvent → Bool
  | SinkEvent.flush => true
  | _ => false

/-- Is this sink event a body write? -/
def SinkEvent.isWrite : SinkEvent → Bool
  | SinkEvent.write _ => true
  | _ => false

/-- Is this sink event a status-code write (any `WriteHeader` forward)? -/
def SinkEvent.isHeaderWrite : SinkEvent → Bool
  | SinkEvent.writeHeader _ => true
  | _ => false

/-- Is this sink event a finalizing (2xx-5xx) status-code write? -/
def SinkEvent.isFinalHeaderWrite : SinkEvent → Bool
  | SinkEvent.writeHeader c => 200 ≤ c
  | _ => false

/-- A pure sequence of `Write` calls, as handler actions. -/
def writeOps (ws : List (List Nat × (Nat × Option String))) : List Op :=
  ws.map fun p => Op.write p.1 p.2

/-- The sink trace `write d₁, flush, write d₂, flush, ...` of auto-flushed
streaming writes. -/
def writeFlushTrace : List (List Nat × (Nat × Option String)) → List SinkEvent
  | [] => []
  | (d, _) :: rest => SinkEvent.write d :: SinkEvent.flush :: writeFlushTrace rest

/-- Concatenation of a list of byte strings, in order. -/
def concatAll : List (List Nat) → List Nat
  | [] => []
  | l :: ls => l ++ concatAll ls

/-! Closed forms of the operations, by case on the wrapper state. -/

/-- Closed form of `WriteHeader` with no retained flusher: forward and record, nothing else. -/
theorem writeHeader_eq_noFlusher (rw : ResponseWriter) (cts : List String)
    (sink : SinkState) (c : Int) (h : rw.flusher = false) :
    rw.WriteHeader cts sink c =
      ({ rw with code := c },
       ⟨sink.headers, sink.events ++ [SinkEvent.writeHeader c]⟩) := by
  simp [ResponseWriter.WriteHeader, h]

/-- Closed form of `WriteHeader` with a retained flusher and a streaming content type:
forward, record, and flush after returning; the flusher is kept. -/
theorem writeHeader_eq_streaming (rw : ResponseWriter) (cts : List String)
    (sink : SinkState) (c : Int) (h : rw.flusher = true)
    (hm : matchesStreaming cts (headerGet sink.headers "Content-Type") = true) :
    rw.WriteHeader cts sink c =
      ({ rw with code := c },
       ⟨sink.headers,
        sink.events ++ [SinkEvent.writeHeader c, SinkEvent.flush]⟩) := by
  simp [ResponseWriter.WriteHeader, h, hm]

/-- Closed form of `WriteHeader` with a retained flusher and a non-streaming content type:
forward, record, and null the flusher (the one-way latch). -/
theorem writeHeader_eq_latch (rw : ResponseWriter) (cts : List String)
    (sink : SinkState) (c : Int) (h : rw.flusher = true)
    (hm : matchesStreaming cts (headerGet sink.headers "Content-Type") = false) :
    rw.WriteHeader cts sink c =
      ({ rw with code := c, flusher := false },
       ⟨sink.headers, sink.events ++ [SinkEvent.writeHeader c]⟩) := by
  simp [ResponseWriter.WriteHeader, h, hm]

/-- Lemma: `WriteHeader` never touches the capture buffer. -/
theorem writeHeader_body (rw : ResponseWriter) (cts : List String)
    (sink : SinkState) (c : Int) :
    (rw.WriteHeader cts sink c).1.body = rw.body := by
  simp only [ResponseWriter.WriteHeader]
  split
  · rfl
  · split <;> rfl

/-- Lemma: `WriteHeader` records exactly the status it was given. -/
theorem writeHeader_code (rw : ResponseWriter) (cts : List String)
    (sink : SinkState) (c : Int) :
    (rw.WriteHeader cts sink c).1.code = c := by
  simp only [ResponseWriter.WriteHeader]
  split
  · rfl
  · split <;> rfl

/-- Lemma: `WriteHeader` cannot resurrect a nulled flusher. -/
theorem writeHeader_flusher_false (rw : ResponseWriter) (cts : List String)
    (sink : SinkState) (c : Int) (h : rw.flusher = false) :
    (rw.WriteHeader cts sink c).1.flusher = false := by
  simp [writeHeader_eq_noFlusher rw cts sink c h, h]

/-- Lemma: `WriteHeader` never mutates the header map. -/
theorem writeHeader_headers (rw : ResponseWriter) (cts : List String)
    (sink : SinkState) (c : Int) :
    (rw.WriteHeader cts sink c).2.headers = sink.headers := by
  simp only [ResponseWriter.WriteHeader]
  split
  · rfl
  · split <;> rfl

/-- Lemma: `WriteHeader` forwards no body write to the sink. -/
theorem writeHeader_filter_isWrite (rw : ResponseWriter) (cts : List String)
    (sink : SinkState) (c : Int) :
    (rw.WriteHeader cts sink c).2.events.filter SinkEvent.isWrite
      = sink.events.filter SinkEvent.isWrite := by
  simp only [ResponseWriter.WriteHeader]
  split
  · simp [SinkEvent.isWrite]
  · split <;> simp [SinkEvent.isWrite]

/-- Every `WriteHeader` call forwards exactly one status write to the sink:
its own status, unconditionally. -/
theorem writeHeader_filter_isHeaderWrite (rw : ResponseWriter)
    (cts : List String) (sink : SinkState) (c : Int) :
    (rw.WriteHeader cts sink c).2.events.filter SinkEvent.isHeaderWrite
      = sink.events.filter SinkEvent.isHeaderWrite
          ++ [SinkEvent.writeHeader c] := by
  simp only [ResponseWriter.WriteHeader]
  split
  · simp [SinkEvent.isHeaderWrite]
  · split <;> simp [SinkEvent.isHeaderWrite, SinkEvent.isFlush]

/-- A `WriteHeader` call by a wrapper whose flusher is nulled adds no
flush event to the sink trace. -/
theorem writeHeader_filter_isFlush_noFlusher (rw : ResponseWriter)
    (cts : List String) (sink : SinkState) (c : Int) (h : rw.flusher = false) :
    (rw.WriteHeader cts sink c).2.events.filter SinkEvent.isFlush
      = sink.events.filter SinkEvent.isFlush := by
  simp [writeHeader_eq_noFlusher rw cts sink c h, SinkEvent.isFlush]

/-- Lemma: `Write` returns the underlying sink's result verbatim. -/
theorem write_result (rw : ResponseWriter) (cts : List String)
    (sink : SinkState) (d : List Nat) (r : Nat × Option String) :
    (rw.Write cts sink d r).2.2 = r := by
  rfl

/-- The body-capture step leaves the flusher alone. -/
theorem bodyAppend_flusher (rw : ResponseWriter) (d : List Nat) :
    (bodyAppend rw d).flusher = rw.flusher := by
  cases hb : rw.body <;> simp [bodyAppend, hb]

/-- The body-capture step leaves the recorded code alone. -/
theorem bodyAppend_code (rw : ResponseWriter) (d : List Nat) :
    (bodyAppend rw d).code = rw.code := by
  cases hb : rw.body <;> simp [bodyAppend, hb]

/-- The body-capture step appends to a present buffer. -/
theorem bodyAppend_body_some (rw : ResponseWriter) (d : List Nat)
    (b : List Nat) (h : rw.body = some b) :
    (bodyAppend rw d).body = some (b ++ d) := by
  simp [bodyAppend, h]

/-- The body-capture step skips an absent buffer. -/
theorem bodyAppend_body_none (rw : ResponseWriter) (d : List Nat)
    (h : rw.body = none) :
    (bodyAppend rw d).body = none := by
  simp [bodyAppend, h]

/-- The wrapper state `Write` returns: the body-capture step applied to the
state left by the implicit `WriteHeader(200)`, if any. -/
theorem write_fst (rw : ResponseWriter) (cts : List String) (sink : SinkState)
    (d : List Nat) (r : Nat × Option String) :
    (rw.Write cts sink d r).1
      = bodyAppend (if rw.code = 0 then rw.WriteHeader cts sink 200
                    else (rw, sink)).1 d := by
  rfl

/-- Closed form of `Write` with a recorded code already nonzero is the same as `Write`
after the (skipped) implicit `WriteHeader`: closed form with a retained
flusher — the sink gets the body write then the deferred flush. -/
theorem write_eq_nonzero_flusher (rw : ResponseWriter) (cts : List String)
    (sink : SinkState) (d : List Nat) (r : Nat × Option String)
    (hc : ¬ rw.code = 0) (hf : rw.flusher = true) :
    rw.Write cts sink d r =
      (bodyAppend rw d,
       ⟨sink.headers, sink.events ++ [SinkEvent.write d, SinkEvent.flush]⟩,
       r) := by
  simp [ResponseWriter.Write, hc, bodyAppend_flusher, hf]

/-- Closed form of `Write` with a nonzero recorded code and no retained
flusher — the sink gets the body write and nothing else. -/
theorem write_eq_nonzero_noFlusher (rw : ResponseWriter) (cts : List String)
    (sink : SinkState) (d : List Nat) (r : Nat × Option String)
    (hc : ¬ rw.code = 0) (hf : rw.flusher = false) :
    rw.Write cts sink d r =
      (bodyAppend rw d,
       ⟨sink.headers, sink.events ++ [SinkEvent.write d]⟩,
       r) := by
  simp [ResponseWriter.Write, hc, bodyAppend_flusher, hf]

/-- A first `Write` with no recorded code runs the full `WriteHeader(200)`
logic and then behaves as a `Write` on the resulting state. -/
theorem write_eq_zero (rw : ResponseWriter) (cts : List String)
    (sink : SinkState) (d : List Nat) (r : Nat × Option String)
    (hc : rw.code = 0) :
    rw.Write cts sink d r =
      (rw.WriteHeader cts sink 200).1.Write cts
        (rw.WriteHeader cts sink 200).2 d r := by
  have h200 : ¬ ((rw.WriteHeader cts sink 200).1.code = 0) := by
    rw [writeHeader_code]
    decide
  simp [ResponseWriter.Write, hc, h200]

/-- Recording the implicit 200 makes the code nonzero. -/
theorem code200_ne_zero (rw : ResponseWriter) :
    ¬ ({ rw with code := 200 } : ResponseWriter).code = 0 := by
  show ¬ (200 : Int) = 0
  decide

/-- A `Write` by a wrapper whose flusher is nulled keeps it nulled and adds
no flush event to the sink trace. -/
theorem write_flusher_false_spec (rw : ResponseWriter) (cts : List String)
    (sink : SinkState) (d : List Nat) (r : Nat × Option String)
    (hf : rw.flusher = false) :
    (rw.Write cts sink d r).1.flusher = false ∧
    (rw.Write cts sink d r).2.1.events.filter SinkEvent.isFlush
      = sink.events.filter SinkEvent.isFlush := by
  by_cases hc : rw.code = 0
  · rw [write_eq_zero rw cts sink d r hc,
        writeHeader_eq_noFlusher rw cts sink 200 hf]
    dsimp only
    rw [write_eq_nonzero_noFlusher { rw with code := 200 } cts
          ⟨sink.headers, sink.events ++ [SinkEvent.writeHeader 200]⟩ d r
          (code200_ne_zero rw) (by simp [hf])]
    refine ⟨by simp [bodyAppend_flusher, hf], ?_⟩
    simp [SinkEvent.isFlush]
  · rw [write_eq_nonzero_noFlusher rw cts sink d r hc hf]
    refine ⟨by simp [bodyAppend_flusher, hf], ?_⟩
    simp [SinkEvent.isFlush]

/-- A `Write` on a wrapper with a present capture buffer appends exactly
the written data to it, whatever the sink reports. -/
theorem write_body_some (rw : ResponseWriter) (cts : List String)
    (sink : SinkState) (d : List Nat) (r : Nat × Option String)
    (b : List Nat) (hb : rw.body = some b) :
    (rw.Write cts sink d r).1.body = some (b ++ d) := by
  rw [write_fst]
  by_cases hc : rw.code = 0
  · rw [if_pos hc]
    exact bodyAppend_body_some _ _ b (by rw [writeHeader_body]; exact hb)
  · rw [if_neg hc]
    exact bodyAppend_body_some _ _ b hb

/-- Every `Write` call forwards exactly one body write to the sink: its
own data, once, with no retry. -/
theorem write_filter_isWrite (rw : ResponseWriter) (cts : List String)
    (sink : SinkState) (d : List Nat) (r : Nat × Option String) :
    (rw.Write cts sink d r).2.1.events.filter SinkEvent.isWrite
      = sink.events.filter SinkEvent.isWrite ++ [SinkEvent.write d] := by
  by_cases hc : rw.code = 0
  · rw [write_eq_zero rw cts sink d r hc]
    by_cases hf : rw.flusher = true
    · by_cases hm : matchesStreaming cts (headerGet sink.headers "Content-Type") = true
      · rw [writeHeader_eq_streaming rw cts sink 200 hf hm]
        dsimp only
        rw [write_eq_nonzero_flusher { rw with code := 200 } cts
              ⟨sink.headers,
               sink.events ++ [SinkEvent.writeHeader 200, SinkEvent.flush]⟩ d r
              (code200_ne_zero rw) (by exact hf)]
        dsimp only
        simp [List.filter_append, SinkEvent.isWrite]
      · have hm' : matchesStreaming cts (headerGet sink.headers "Content-Type")
            = false := by simpa using hm
        rw [writeHeader_eq_latch rw cts sink 200 hf hm']
        dsimp only
        rw [write_eq_nonzero_noFlusher { rw with code := 200, flusher := false }
              cts ⟨sink.headers, sink.events ++ [SinkEvent.writeHeader 200]⟩ d r
              (code200_ne_zero rw) rfl]
        dsimp only
        simp [List.filter_append, SinkEvent.isWrite]
    · have hf' : rw.flusher = false := by simpa using hf
      rw [writeHeader_eq_noFlusher rw cts sink 200 hf']
      dsimp only
      rw [write_eq_nonzero_noFlusher { rw with code := 200 } cts
            ⟨sink.headers, sink.events ++ [SinkEvent.writeHeader 200]⟩ d r
            (code200_ne_zero rw) (by exact hf')]
      dsimp only
      simp [List.filter_append, SinkEvent.isWrite]
  · by_cases hf : rw.flusher = true
    · rw [write_eq_nonzero_flusher rw cts sink d r hc hf]
      simp [List.filter_append, SinkEvent.isWrite]
    · have hf' : rw.flusher = false := by simpa using hf
      rw [write_eq_nonzero_noFlusher rw cts sink d r hc hf']
      simp [List.filter_append, SinkEvent.isWrite]

/-- Lemma: `Flush` with no retained flusher is a no-op on the sink. -/
theorem flush_noFlusher (rw : ResponseWriter) (sink : SinkState)
    (h : rw.flusher = false) :
    rw.Flush sink = sink := by
  simp [ResponseWriter.Flush, h]

/-- Lemma: `Flush` with a retained flusher forwards one flush. -/
theorem flush_flusher (rw : ResponseWriter) (sink : SinkState)
    (h : rw.flusher = true) :
    rw.Flush sink = ⟨sink.headers, sink.events ++ [SinkEvent.flush]⟩ := by
  simp [ResponseWriter.Flush, h]

/-- Unfolding `writeOps` on an empty list. -/
theorem writeOps_nil : writeOps [] = [] := rfl

/-- Unfolding `writeOps` on a cons. -/
theorem writeOps_cons (p : List Nat × (Nat × Option String))
    (rest : List (List Nat × (Nat × Option String))) :
    writeOps (p :: rest) = Op.write p.1 p.2 :: writeOps rest := rfl

/-! Invariants preserved by whole traces of handler activity. -/

/-- Once the flusher is nulled it stays nulled, and no operation sequence
ever adds a flush event to the sink trace. -/
theorem run_flusher_false (cts : List String) (ops : List Op) :
    ∀ (rw : ResponseWriter) (sink : SinkState), rw.flusher = false →
      (run cts rw sink ops).1.flusher = false ∧
      (run cts rw sink ops).2.events.filter SinkEvent.isFlush
        = sink.events.filter SinkEvent.isFlush := by
  induction ops with
  | nil =>
      intro rw sink h
      exact ⟨h, rfl⟩
  | cons op rest ih =>
      intro rw sink h
      cases op with
      | setHeader k v =>
          simpa only [run] using ih rw _ h
      | writeHeader c =>
          rw [run, writeHeader_eq_noFlusher rw cts sink c h]
          rcases ih { rw with code := c }
              ⟨sink.headers, sink.events ++ [SinkEvent.writeHeader c]⟩
              (by simp [h]) with ⟨h1, h2⟩
          refine ⟨h1, ?_⟩
          rw [h2]
          simp [SinkEvent.isFlush]
      | write d r0 =>
          rw [run]
          rcases write_flusher_false_spec rw cts sink d r0 h with ⟨h1, h2⟩
          rcases ih (rw.Write cts sink d r0).1 (rw.Write cts sink d r0).2.1 h1
            with ⟨h3, h4⟩
          exact ⟨h3, by rw [h4, h2]⟩
      | flush =>
          rw [run, flush_noFlusher rw sink h]
          exact ih rw sink h

/-- An absent capture buffer stays absent across any operation sequence. -/
theorem run_body_none (cts : List String) (ops : List Op) :
    ∀ (rw : ResponseWriter) (sink : SinkState), rw.body = none →
      (run cts rw sink ops).1.body = none := by
  induction ops with
  | nil =>
      intro rw sink h
      exact h
  | cons op rest ih =>
      intro rw sink h
      cases op with
      | setHeader k v =>
          simpa only [run] using ih rw _ h
      | writeHeader c =>
          rw [run]
          exact ih _ _ (by rw [writeHeader_body]; exact h)
      | write d r0 =>
          rw [run]
          refine ih _ _ ?_
          rw [write_fst]
          by_cases hc : rw.code = 0
          · rw [if_pos hc]
            exact bodyAppend_body_none _ _ (by rw [writeHeader_body]; exact h)
          · rw [if_neg hc]
            exact bodyAppend_body_none _ _ h
      | flush =>
          rw [run]
          exact ih _ _ h

/-- A present capture buffer accumulates exactly the concatenation of the
data of a sequence of `Write` calls, in call order. -/
theorem run_writes_body (cts : List String)
    (ws : List (List Nat × (Nat × Option String))) :
    ∀ (rw : ResponseWriter) (sink : SinkState) (b : List Nat),
      rw.body = some b →
      (run cts rw sink (writeOps ws)).1.body
        = some (b ++ concatAll (ws.map Prod.fst)) := by
  induction ws with
  | nil =>
      intro rw sink b h
      simp [writeOps, run, concatAll, h]
  | cons p rest ih =>
      intro rw sink b h
      rw [writeOps_cons, run,
          ih _ _ _ (write_body_some rw cts sink p.1 p.2 b h)]
      simp [concatAll]

/-- With a retained flusher and a nonzero recorded code, a sequence of
`Write` calls forwards exactly `write d₁, flush, write d₂, flush, ...` to
the sink, and keeps the flusher and the code. -/
theorem run_writes_streaming (cts : List String)
    (ws : List (List Nat × (Nat × Option String))) :
    ∀ (rw : ResponseWriter) (sink : SinkState),
      rw.flusher = true → ¬ rw.code = 0 →
      (run cts rw sink (writeOps ws)).2.events
          = sink.events ++ writeFlushTrace ws ∧
      (run cts rw sink (writeOps ws)).1.flusher = true ∧
      (run cts rw sink (writeOps ws)).1.code = rw.code := by
  induction ws with
  | nil =>
      intro rw sink hf hc
      refine ⟨?_, hf, rfl⟩
      simp [writeOps_nil, run, writeFlushTrace]
  | cons p rest ih =>
      intro rw sink hf hc
      rw [writeOps_cons, run,
          write_eq_nonzero_flusher rw cts sink p.1 p.2 hc hf]
      dsimp only
      rcases ih (bodyAppend rw p.1)
          ⟨sink.headers,
           sink.events ++ [SinkEvent.write p.1, SinkEvent.flush]⟩
          (by rw [bodyAppend_flusher]; exact hf)
          (by rw [bodyAppend_code]; exact hc) with ⟨h1, h2, h3⟩
      refine ⟨?_, h2, by rw [h3, bodyAppend_code]⟩
      rw [h1]
      simp [writeFlushTrace]

/-- Unfolding `run` on an empty trace. -/
theorem run_nil (cts : List String) (rw : ResponseWriter) (sink : SinkState) :
    run cts rw sink [] = (rw, sink) := rfl

/-- Unfolding `run` over a `Write` call. -/
theorem run_cons_write (cts : List String) (rw : ResponseWriter)
    (sink : SinkState) (d : List Nat) (r : Nat × Option String)
    (rest : List Op) :
    run cts rw sink (Op.write d r :: rest)
      = run cts (rw.Write cts sink d r).1 (rw.Write cts sink d r).2.1 rest := rfl

/-- Unfolding `run` over a `WriteHeader` call. -/
theorem run_cons_writeHeader (cts : List String) (rw : ResponseWriter)
    (sink : SinkState) (c : Int) (rest : List Op) :
    run cts rw sink (Op.writeHeader c :: rest)
      = run cts (rw.WriteHeader cts sink c).1 (rw.WriteHeader cts sink c).2
          rest := rfl

/-!
Claims.
-/

/-- Claim C1, counterexample: constructing with a nil sink returns a nil
wrapper pointer, and every operation invoked on that result dereferences
nil wrapper state (the `none` outcome of the `...On` call models the Go
nil-pointer panic): the operations are not safe no-ops. -/
theorem nilSink_operations_counterexample :
    NewResponseWriter false true true = none ∧
    GetResponseCodeOn (NewResponseWriter false true true) = none ∧
    GetBodyOn (NewResponseWriter false true true) = none ∧
    HeaderOn (NewResponseWriter false true true) ⟨[], []⟩ = none ∧
    WriteHeaderOn (NewResponseWriter false true true) StreamingContentTypes
      ⟨[], []⟩ 200 = none ∧
    WriteOn (NewResponseWriter false true true) StreamingContentTypes
      ⟨[], []⟩ [1] (1, none) = none ∧
    FlushOn (NewResponseWriter false true true) ⟨[], []⟩ = none := by
  decide

/-- Claim C1 as amended: constructing with a nil sink yields no wrapper (a
nil pointer) — the constructor itself does not fail — but every operation
invoked on that nil result is a nil dereference (`none`), for any flags
and arguments, rather than a safe no-op. -/
theorem nilSink_yields_nil_and_operations_deref (flushCapable captureBody : Bool)
    (cts : List String) (sink : SinkState) (d : List Nat)
    (r : Nat × Option String) (c : Int) :
    NewResponseWriter false flushCapable captureBody = none ∧
    GetResponseCodeOn (NewResponseWriter false flushCapable captureBody) = none ∧
    GetBodyOn (NewResponseWriter false flushCapable captureBody) = none ∧
    HeaderOn (NewResponseWriter false flushCapable captureBody) sink = none ∧
    WriteHeaderOn (NewResponseWriter false flushCapable captureBody) cts sink c
      = none ∧
    WriteOn (NewResponseWriter false flushCapable captureBody) cts sink d r
      = none ∧
    FlushOn (NewResponseWriter false flushCapable captureBody) sink = none := by
  simp [NewResponseWriter, GetResponseCodeOn, GetBodyOn, HeaderOn,
        WriteHeaderOn, WriteOn, FlushOn]

/-- Claim C2: on a wrapper whose flusher is retained, a `WriteHeader` made
while the `Content-Type` header matches no configured streaming content
type forwards only the status (no flush at that call), permanently
discards the flush capability, and no subsequent operation sequence —
later `Write` calls included, even after a later `WriteHeader` with a
streaming `Content-Type` — ever adds a flush event to the sink trace. -/
theorem latch_discards_flush_capability_permanently (cts : List String)
    (rw : ResponseWriter) (sink : SinkState) (c : Int) (ops : List Op)
    (hf : rw.flusher = true)
    (hct : matchesStreaming cts (headerGet sink.headers "Content-Type")
      = false) :
    (rw.WriteHeader cts sink c).1.flusher = false ∧
    (rw.WriteHeader cts sink c).2.events
      = sink.events ++ [SinkEvent.writeHeader c] ∧
    (run cts (rw.WriteHeader cts sink c).1 (rw.WriteHeader cts sink c).2
      ops).1.flusher = false ∧
    (run cts (rw.WriteHeader cts sink c).1 (rw.WriteHeader cts sink c).2
      ops).2.events.filter SinkEvent.isFlush
      = sink.events.filter SinkEvent.isFlush := by
  rw [writeHeader_eq_latch rw cts sink c hf hct]
  dsimp only
  rcases run_flusher_false cts ops { rw with code := c, flusher := false }
      ⟨sink.headers, sink.events ++ [SinkEvent.writeHeader c]⟩ rfl
    with ⟨h1, h2⟩
  refine ⟨rfl, rfl, h1, ?_⟩
  rw [h2]
  simp [SinkEvent.isFlush]

/-- Claim C2, witness at a concrete input: flusher retained, `Content-Type`
absent at the latching `WriteHeader(200)`; afterwards the handler sets
`Content-Type: text/event-stream`, calls `WriteHeader` again, writes, and
flushes — still no flush event ever reaches the sink. -/
theorem latch_discards_flush_capability_permanently_witness :
    ((⟨true, 0, none⟩ : ResponseWriter).flusher = true ∧
     matchesStreaming StreamingContentTypes
       (headerGet (⟨[], []⟩ : SinkState).headers "Content-Type") = false) ∧
    ((⟨true, 0, none⟩ : ResponseWriter).WriteHeader StreamingContentTypes
        ⟨[], []⟩ 200).1.flusher = false ∧
    ((⟨true, 0, none⟩ : ResponseWriter).WriteHeader StreamingContentTypes
        ⟨[], []⟩ 200).2.events
      = (⟨[], []⟩ : SinkState).events ++ [SinkEvent.writeHeader 200] ∧
    (run StreamingContentTypes
        ((⟨true, 0, none⟩ : ResponseWriter).WriteHeader StreamingContentTypes
          ⟨[], []⟩ 200).1
        ((⟨true, 0, none⟩ : ResponseWriter).WriteHeader StreamingContentTypes
          ⟨[], []⟩ 200).2
        [Op.setHeader "Content-Type" "text/event-stream", Op.writeHeader 200,
         Op.write [1] (1, none), Op.flush]).1.flusher = false ∧
    (run StreamingContentTypes
        ((⟨true, 0, none⟩ : ResponseWriter).WriteHeader StreamingContentTypes
          ⟨[], []⟩ 200).1
        ((⟨true, 0, none⟩ : ResponseWriter).WriteHeader StreamingContentTypes
          ⟨[], []⟩ 200).2
        [Op.setHeader "Content-Type" "text/event-stream", Op.writeHeader 200,
         Op.write [1] (1, none), Op.flush]).2.events.filter SinkEvent.isFlush
      = (⟨[], []⟩ : SinkState).events.filter SinkEvent.isFlush :=
  ⟨⟨by decide, by decide⟩,
   latch_discards_flush_capability_permanently StreamingContentTypes
     ⟨true, 0, none⟩ ⟨[], []⟩ 200
     [Op.setHeader "Content-Type" "text/event-stream", Op.writeHeader 200,
      Op.write [1] (1, none), Op.flush]
     (by decide) (by decide)⟩

/-- Claim C3: a freshly constructed wrapper reports code 0; a first `Write`
with no prior `WriteHeader` reports 200 and the implicit `WriteHeader(200)`
is forwarded to the sink; `WriteHeader(201)` followed by `Write` reports
201 and no implicit 200 status write reaches the sink. -/
theorem getResponseCode_lifecycle (f cb : Bool) (hs : List (String × String))
    (d d2 : List Nat) (r r2 : Nat × Option String) :
    NewResponseWriter true f cb = some (freshRW f cb) ∧
    (freshRW f cb).GetResponseCode = 0 ∧
    (run StreamingContentTypes (freshRW f cb) ⟨hs, []⟩
      [Op.write d r]).1.GetResponseCode = 200 ∧
    SinkEvent.writeHeader 200 ∈
      (run StreamingContentTypes (freshRW f cb) ⟨hs, []⟩
        [Op.write d r]).2.events ∧
    (run StreamingContentTypes (freshRW f cb) ⟨hs, []⟩
      [Op.writeHeader 201, Op.write d2 r2]).1.GetResponseCode = 201 ∧
    SinkEvent.writeHeader 200 ∉
      (run StreamingContentTypes (freshRW f cb) ⟨hs, []⟩
        [Op.writeHeader 201, Op.write d2 r2]).2.events := by
  refine ⟨by simp [NewResponseWriter, freshRW], rfl, ?_, ?_, ?_, ?_⟩
  · rw [run_cons_write, run_nil]
    dsimp only
    simp only [ResponseWriter.GetResponseCode]
    rw [write_fst, if_pos (show (freshRW f cb).code = 0 from rfl),
        bodyAppend_code, writeHeader_code]
  · rw [run_cons_write, run_nil]
    dsimp only
    rw [write_eq_zero _ _ _ _ _ rfl]
    by_cases hf : (freshRW f cb).flusher = true
    · by_cases hm : matchesStreaming StreamingContentTypes
          (headerGet (⟨hs, []⟩ : SinkState).headers "Content-Type") = true
      · rw [writeHeader_eq_streaming _ _ _ _ hf hm]
        dsimp only
        simp only [List.nil_append]
        rw [write_eq_nonzero_flusher { freshRW f cb with code := 200 }
              StreamingContentTypes
              ⟨hs, [SinkEvent.writeHeader 200, SinkEvent.flush]⟩ d r
              (code200_ne_zero (freshRW f cb)) (by exact hf)]
        simp
      · have hm' : matchesStreaming StreamingContentTypes
            (headerGet (⟨hs, []⟩ : SinkState).headers "Content-Type") = false := by
          simpa using hm
        rw [writeHeader_eq_latch _ _ _ _ hf hm']
        dsimp only
        simp only [List.nil_append]
        rw [write_eq_nonzero_noFlusher
              { freshRW f cb with code := 200, flusher := false }
              StreamingContentTypes ⟨hs, [SinkEvent.writeHeader 200]⟩ d r
              (code200_ne_zero (freshRW f cb)) rfl]
        simp
    · have hf' : (freshRW f cb).flusher = false := by simpa using hf
      rw [writeHeader_eq_noFlusher _ _ _ _ hf']
      dsimp only
      simp only [List.nil_append]
      rw [write_eq_nonzero_noFlusher { freshRW f cb with code := 200 }
            StreamingContentTypes ⟨hs, [SinkEvent.writeHeader 200]⟩ d r
            (code200_ne_zero (freshRW f cb)) (by exact hf')]
      simp
  · rw [run_cons_writeHeader, run_cons_write, run_nil]
    dsimp only
    simp only [ResponseWriter.GetResponseCode]
    have h201 : ¬ ((freshRW f cb).WriteHeader StreamingContentTypes
        ⟨hs, []⟩ 201).1.code = 0 := by
      rw [writeHeader_code]
      decide
    rw [write_fst, if_neg h201, bodyAppend_code, writeHeader_code]
  · rw [run_cons_writeHeader, run_cons_write, run_nil]
    dsimp only
    by_cases hf : (freshRW f cb).flusher = true
    · by_cases hm : matchesStreaming StreamingContentTypes
          (headerGet (⟨hs, []⟩ : SinkState).headers "Content-Type") = true
      · rw [writeHeader_eq_streaming _ _ _ _ hf hm]
        dsimp only
        simp only [List.nil_append]
        rw [write_eq_nonzero_flusher { freshRW f cb with code := 201 }
              StreamingContentTypes
              ⟨hs, [SinkEvent.writeHeader 201, SinkEvent.flush]⟩ d2 r2
              (by show ¬ (201 : Int) = 0; decide) (by exact hf)]
        simp [SinkEvent.writeHeader.injEq]
      · have hm' : matchesStreaming StreamingContentTypes
            (headerGet (⟨hs, []⟩ : SinkState).headers "Content-Type") = false := by
          simpa using hm
        rw [writeHeader_eq_latch _ _ _ _ hf hm']
        dsimp only
        simp only [List.nil_append]
        rw [write_eq_nonzero_noFlusher
              { freshRW f cb with code := 201, flusher := false }
              StreamingContentTypes ⟨hs, [SinkEvent.writeHeader 201]⟩ d2 r2
              (by show ¬ (201 : Int) = 0; decide) rfl]
        simp [SinkEvent.writeHeader.injEq]
    · have hf' : (freshRW f cb).flusher = false := by simpa using hf
      rw [writeHeader_eq_noFlusher _ _ _ _ hf']
      dsimp only
      simp only [List.nil_append]
      rw [write_eq_nonzero_noFlusher { freshRW f cb with code := 201 }
            StreamingContentTypes ⟨hs, [SinkEvent.writeHeader 201]⟩ d2 r2
            (by show ¬ (201 : Int) = 0; decide) (by exact hf')]
      simp [SinkEvent.writeHeader.injEq]

/-- Claim C4, counterexample: after `WriteHeader(201)` the recorded code is
the nonzero 201, yet a later `WriteHeader(202)` is still forwarded: the
sink trace ends up holding two finalizing (2xx) status writes. -/
theorem second_writeHeader_forwarded_counterexample :
    (run StreamingContentTypes (freshRW false false) ⟨[], []⟩
      [Op.writeHeader 201]).1.code = 201 ∧
    (run StreamingContentTypes (freshRW false false) ⟨[], []⟩
      [Op.writeHeader 201, Op.writeHeader 202]).2.events
      = [SinkEvent.writeHeader 201, SinkEvent.writeHeader 202] ∧
    ((run StreamingContentTypes (freshRW false false) ⟨[], []⟩
      [Op.writeHeader 201, Op.writeHeader 202]).2.events.filter
        SinkEvent.isFinalHeaderWrite).length = 2 := by
  decide

/-- Claim C4 as amended: the wrapper records the status of each
`WriteHeader` call, but every call — repeats after a nonzero recorded code
included — unconditionally forwards exactly one status write for its own
code to the sink; the wrapper never suppresses a second finalizing status
(preventing double-finalization is left to the sink and its caller). -/
theorem writeHeader_forwards_every_call (cts : List String)
    (rw : ResponseWriter) (sink : SinkState) (c : Int) :
    (rw.WriteHeader cts sink c).1.code = c ∧
    (rw.WriteHeader cts sink c).2.events.filter SinkEvent.isHeaderWrite
      = sink.events.filter SinkEvent.isHeaderWrite
          ++ [SinkEvent.writeHeader c] :=
  ⟨writeHeader_code rw cts sink c, writeHeader_filter_isHeaderWrite rw cts sink c⟩

/-- Claim C5: with body capture enabled, after any sequence of `Write`
calls — whatever the sink reports for each — `GetBody` returns exactly the
concatenation of the written chunks, byte for byte, in call order. -/
theorem getBody_concatenates_writes (f : Bool) (cts : List String)
    (hs : List (String × String))
    (ws : List (List Nat × (Nat × Option String))) :
    NewResponseWriter true f true = some (freshRW f true) ∧
    (run cts (freshRW f true) ⟨hs, []⟩ (writeOps ws)).1.GetBody
      = some (concatAll (ws.map Prod.fst)) := by
  refine ⟨by simp [NewResponseWriter, freshRW], ?_⟩
  have h := run_writes_body cts ws (freshRW f true) ⟨hs, []⟩ [] rfl
  simp [ResponseWriter.GetBody, h]

/-- Claim C6: on a wrapper with a retained flusher, after a `WriteHeader`
with a nonzero status made while `Content-Type` is already
`text/event-stream`, any sequence of subsequent `Write` calls forwards to
the sink exactly one flush per write, each immediately after that write's
body bytes: the trace grows by `write d₁, flush, write d₂, flush, ...`. -/
theorem streaming_write_flushes_once_after_write (rw : ResponseWriter)
    (sink : SinkState) (c : Int)
    (ws : List (List Nat × (Nat × Option String)))
    (hf : rw.flusher = true) (hc : ¬ c = 0)
    (hct : headerGet sink.headers "Content-Type" = "text/event-stream") :
    (run StreamingContentTypes
        (rw.WriteHeader StreamingContentTypes sink c).1
        (rw.WriteHeader StreamingContentTypes sink c).2
        (writeOps ws)).2.events
      = (rw.WriteHeader StreamingContentTypes sink c).2.events
          ++ writeFlushTrace ws := by
  have hm : matchesStreaming StreamingContentTypes
      (headerGet sink.headers "Content-Type") = true := by
    rw [hct]
    decide
  rw [writeHeader_eq_streaming rw StreamingContentTypes sink c hf hm]
  dsimp only
  exact (run_writes_streaming StreamingContentTypes ws { rw with code := c }
    ⟨sink.headers,
     sink.events ++ [SinkEvent.writeHeader c, SinkEvent.flush]⟩
    (by exact hf) (by exact hc)).1

/-- Claim C6, witness at a concrete input: flusher retained,
`Content-Type: text/event-stream` already set, `WriteHeader(200)`, then
two writes — the sink trace grows by exactly one flush after each write. -/
theorem streaming_write_flushes_once_after_write_witness :
    ((⟨true, 0, none⟩ : ResponseWriter).flusher = true ∧
     ¬ (200 : Int) = 0 ∧
     headerGet (⟨[("Content-Type", "text/event-stream")], []⟩
        : SinkState).headers "Content-Type" = "text/event-stream") ∧
    (run StreamingContentTypes
        ((⟨true, 0, none⟩ : ResponseWriter).WriteHeader StreamingContentTypes
          ⟨[("Content-Type", "text/event-stream")], []⟩ 200).1
        ((⟨true, 0, none⟩ : ResponseWriter).WriteHeader StreamingContentTypes
          ⟨[("Content-Type", "text/event-stream")], []⟩ 200).2
        (writeOps [([1], (1, none)), ([2], (2, none))])).2.events
      = ((⟨true, 0, none⟩ : ResponseWriter).WriteHeader StreamingContentTypes
          ⟨[("Content-Type", "text/event-stream")], []⟩ 200).2.events
          ++ writeFlushTrace [([1], (1, none)), ([2], (2, none))] :=
  ⟨⟨by decide, by decide, by decide⟩,
   streaming_write_flushes_once_after_write ⟨true, 0, none⟩
     ⟨[("Content-Type", "text/event-stream")], []⟩ 200
     [([1], (1, none)), ([2], (2, none))]
     (by decide) (by decide) (by decide)⟩

/-- Claim C7: with body capture disabled at construction, the buffer
reference is absent for the wrapper's whole life — across any operation
sequence, every `Write` skips buffering — and `GetBody` returns the
absent result whatever was written. -/
theorem captureBody_false_buffer_absent (f : Bool) (cts : List String)
    (hs : List (String × String)) (ops : List Op) :
    NewResponseWriter true f false = some (freshRW f false) ∧
    (freshRW f false).body = none ∧
    (run cts (freshRW f false) ⟨hs, []⟩ ops).1.body = none ∧
    (run cts (freshRW f false) ⟨hs, []⟩ ops).1.GetBody = none := by
  have h := run_body_none cts ops (freshRW f false) ⟨hs, []⟩ rfl
  exact ⟨by simp [NewResponseWriter, freshRW], rfl, h,
         by simp [ResponseWriter.GetBody, h]⟩

/-- Claim C8: when the underlying sink reports `(n, e)` for a write, the
wrapper's `Write` returns exactly `(n, e)` unaltered, forwards the body
write to the sink exactly once (no retry), and — capture being enabled —
the buffer still holds the full data that was attempted. -/
theorem write_passes_result_through_no_retry (cts : List String)
    (rw : ResponseWriter) (sink : SinkState) (d : List Nat) (n : Nat)
    (e : Option String) (b : List Nat) (hb : rw.body = some b) :
    (rw.Write cts sink d (n, e)).2.2 = (n, e) ∧
    (rw.Write cts sink d (n, e)).1.body = some (b ++ d) ∧
    (rw.Write cts sink d (n, e)).2.1.events.filter SinkEvent.isWrite
      = sink.events.filter SinkEvent.isWrite ++ [SinkEvent.write d] :=
  ⟨write_result rw cts sink d (n, e),
   write_body_some rw cts sink d (n, e) b hb,
   write_filter_isWrite rw cts sink d (n, e)⟩

/-- Claim C8, witness at a concrete input: the sink reports a short write
with an error; the wrapper returns it unchanged, the sink got exactly one
body write, and the buffer kept the whole attempted data. -/
theorem write_passes_result_through_no_retry_witness :
    ((⟨false, 404, some [9]⟩ : ResponseWriter).body = some [9]) ∧
    ((⟨false, 404, some [9]⟩ : ResponseWriter).Write StreamingContentTypes
        ⟨[], []⟩ [1, 2, 3] (1, some "broken pipe")).2.2
      = (1, some "broken pipe") ∧
    ((⟨false, 404, some [9]⟩ : ResponseWriter).Write StreamingContentTypes
        ⟨[], []⟩ [1, 2, 3] (1, some "broken pipe")).1.body
      = some ([9] ++ [1, 2, 3]) ∧
    ((⟨false, 404, some [9]⟩ : ResponseWriter).Write StreamingContentTypes
        ⟨[], []⟩ [1, 2, 3] (1, some "broken pipe")).2.1.events.filter
          SinkEvent.isWrite
      = (⟨[], []⟩ : SinkState).events.filter SinkEvent.isWrite
          ++ [SinkEvent.write [1, 2, 3]] :=
  ⟨by decide,
   write_passes_result_through_no_retry StreamingContentTypes
     ⟨false, 404, some [9]⟩ ⟨[], []⟩ [1, 2, 3] 1 (some "broken pipe") [9]
     (by decide)⟩

/-- Claim C9: after a `WriteHeader` with a non-streaming `Content-Type`
cleared the retained flusher, an explicit `Flush` call is a permanent
no-op: at every later point of any operation sequence it forwards nothing
to the sink, even though the sink itself still supports flushing. -/
theorem explicit_flush_noop_after_latch (cts : List String)
    (rw : ResponseWriter) (sink : SinkState) (c : Int) (ops : List Op)
    (hf : rw.flusher = true)
    (hct : matchesStreaming cts (headerGet sink.headers "Content-Type")
      = false) :
    ((run cts (rw.WriteHeader cts sink c).1 (rw.WriteHeader cts sink c).2
        ops).1).Flush
      (run cts (rw.WriteHeader cts sink c).1 (rw.WriteHeader cts sink c).2
        ops).2
      = (run cts (rw.WriteHeader cts sink c).1 (rw.WriteHeader cts sink c).2
          ops).2 := by
  rw [writeHeader_eq_latch rw cts sink c hf hct]
  dsimp only
  exact flush_noFlusher _ _
    (run_flusher_false cts ops { rw with code := c, flusher := false }
      ⟨sink.headers, sink.events ++ [SinkEvent.writeHeader c]⟩ rfl).1

/-- Claim C9, witness at a concrete input: after the latching
`WriteHeader(200)` with no `Content-Type`, the handler sets a streaming
content type and writes; an explicit `Flush` then still forwards
nothing. -/
theorem explicit_flush_noop_after_latch_witness :
    ((⟨true, 0, none⟩ : ResponseWriter).flusher = true ∧
     matchesStreaming StreamingContentTypes
       (headerGet (⟨[], []⟩ : SinkState).headers "Content-Type") = false) ∧
    ((run StreamingContentTypes
        ((⟨true, 0, none⟩ : ResponseWriter).WriteHeader StreamingContentTypes
          ⟨[], []⟩ 200).1
        ((⟨true, 0, none⟩ : ResponseWriter).WriteHeader StreamingContentTypes
          ⟨[], []⟩ 200).2
        [Op.setHeader "Content-Type" "text/event-stream",
         Op.write [1] (1, none)]).1).Flush
      (run StreamingContentTypes
        ((⟨true, 0, none⟩ : ResponseWriter).WriteHeader StreamingContentTypes
          ⟨[], []⟩ 200).1
        ((⟨true, 0, none⟩ : ResponseWriter).WriteHeader StreamingContentTypes
          ⟨[], []⟩ 200).2
        [Op.setHeader "Content-Type" "text/event-stream",
         Op.write [1] (1, none)]).2
      = (run StreamingContentTypes
          ((⟨true, 0, none⟩ : ResponseWriter).WriteHeader StreamingContentTypes
            ⟨[], []⟩ 200).1
          ((⟨true, 0, none⟩ : ResponseWriter).WriteHeader StreamingContentTypes
            ⟨[], []⟩ 200).2
          [Op.setHeader "Content-Type" "text/event-stream",
           Op.write [1] (1, none)]).2 :=
  ⟨⟨by decide, by decide⟩,
   explicit_flush_noop_after_latch StreamingContentTypes ⟨true, 0, none⟩
     ⟨[], []⟩ 200
     [Op.setHeader "Content-Type" "text/event-stream", Op.write [1] (1, none)]
     (by decide) (by decide)⟩

/-- Claim C10: a first `Write` with no prior `WriteHeader`, on a wrapper
built from a flush-capable sink whose `Content-Type` is already a
streaming one, runs the full `WriteHeader(200)` logic and forwards to the
sink, in order: the implicit status write 200, a flush (from the implicit
`WriteHeader(200)`, before the body bytes), the body write, and a second
flush after the sink write returns — two flushes for that single call. -/
theorem first_write_streaming_flushes_twice (cb : Bool) (sink : SinkState)
    (d : List Nat) (r : Nat × Option String)
    (hct : matchesStreaming StreamingContentTypes
        (headerGet sink.headers "Content-Type") = true) :
    ((freshRW true cb).Write StreamingContentTypes sink d r).2.1.events
      = sink.events ++ [SinkEvent.writeHeader 200, SinkEvent.flush,
                        SinkEvent.write d, SinkEvent.flush] := by
  rw [write_eq_zero _ _ _ _ _ rfl,
      writeHeader_eq_streaming _ _ _ _ rfl hct]
  dsimp only
  rw [write_eq_nonzero_flusher { freshRW true cb with code := 200 }
        StreamingContentTypes
        ⟨sink.headers,
         sink.events ++ [SinkEvent.writeHeader 200, SinkEvent.flush]⟩ d r
        (code200_ne_zero (freshRW true cb)) rfl]
  simp

/-- Claim C10, witness at a concrete input: capture enabled,
`Content-Type: application/x-ndjson` already set, a single first `Write`
puts status 200, flush, the body write, flush on the sink trace. -/
theorem first_write_streaming_flushes_twice_witness :
    matchesStreaming StreamingContentTypes
      (headerGet (⟨[("Content-Type", "application/x-ndjson")], []⟩
        : SinkState).headers "Content-Type") = true ∧
    ((freshRW true true).Write StreamingContentTypes
        ⟨[("Content-Type", "application/x-ndjson")], []⟩ [7] (1, none)).2.1.events
      = (⟨[("Content-Type", "application/x-ndjson")], []⟩
          : SinkState).events
          ++ [SinkEvent.writeHeader 200, SinkEvent.flush,
              SinkEvent.write [7], SinkEvent.flush] :=
  ⟨by decide,
   first_write_streaming_flushes_twice true
     ⟨[("Content-Type", "application/x-ndjson")], []⟩ [7] (1, none)
     (by decide)⟩

end Httplog
